import Mathlib

/-
  Shallow embedding of the WebSocket connection/subscription registry and
  broadcast engine of the real-time polling service (source: the WebSocket
  handler module: websocketHandler, handleMessage, handleAuthentication,
  subscribeToPoll, unsubscribeFromPoll, removeFromPollSubscriptions,
  broadcastPollUpdate, generateClientId, getConnectionStats,
  cleanupInactiveConnections).

  Modelling conventions:
  * JS `Map` objects (clients, authenticatedClients, pollSubscriptions) are
    insertion-ordered association lists `List (String × α)`; `Map.set` updates
    an existing key in place and appends a new one, `Map.delete` removes the
    key, matching JS Map semantics on duplicate-free key lists.
  * JS `Set` objects (per-poll subscriber sets) are insertion-ordered
    duplicate-free `List String` with add/delete mirroring Set.add/Set.delete.
  * The websocket transport is abstracted per client by two booleans:
    `wsOpen` (readyState === OPEN) and `sendFails` (ws.send throws).
  * `jwt.verify` is an external credential verifier, passed in as a function
    `String → Option String` returning the decoded userId on success.
  * Timestamps (`Date.now()`, `new Date()`) are milliseconds as `Nat`,
    passed explicitly as `now` parameters.
  * Frames the server sends to the handled client are collected in a
    returned `List OutMsg`; log calls (logWebSocketEvent, logSecurityEvent)
    have no observable state effect and are dropped.
  * Diagnostic metadata (ip, userAgent) is elided: no code path reads it
    other than for logging.
-/

set_option autoImplicit false

namespace PollWS

/-- Insertion-ordered association list standing for a JS `Map` with string keys. -/
abbrev JsMap (α : Type) : Type := List (String × α)

/-- `Map.get`: first entry with the given key. -/
def mapGet {α : Type} : JsMap α → String → Option α
  | [], _ => none
  | e :: es, k => if e.1 = k then some e.2 else mapGet es k

/-- `Map.has`. -/
def mapHas {α : Type} (m : JsMap α) (k : String) : Bool :=
  (mapGet m k).isSome

/-- `Map.set`: update the existing key in place (keys are unique in a JS
Map, so the first occurrence is the only one), else append. -/
def mapSet {α : Type} : JsMap α → String → α → JsMap α
  | [], k, v => [(k, v)]
  | e :: es, k, v => if e.1 = k then (k, v) :: es else e :: mapSet es k v

/-- `Map.delete`. -/
def mapDelete {α : Type} (m : JsMap α) (k : String) : JsMap α :=
  m.filter (fun e => e.1 != k)

/-- `Set.add`: append if absent (JS Sets keep insertion order). -/
def setAdd (l : List String) (x : String) : List String :=
  if l.contains x then l else l ++ [x]

/-- `Set.delete`. -/
def setDelete (l : List String) (x : String) : List String :=
  l.filter (fun y => y != x)

/-- One entry of the `clients` map: the per-connection record built at accept
time in `websocketHandler` (the `ws` transport object is abstracted by
`wsOpen`/`sendFails`). -/
structure ClientInfo where
  wsOpen : Bool
  sendFails : Bool
  authenticated : Bool
  userId : Option String
  connectedAt : Nat
  lastPing : Nat
  lastActivity : Option Nat
  authenticatedAt : Option Nat
  deriving Repr, DecidableEq

/-- One entry of the `authenticatedClients` map. -/
structure AuthInfo where
  userId : String
  authenticatedAt : Nat
  deriving Repr, DecidableEq

/-- The three module-level maps of the WebSocket handler module. -/
structure ServerState where
  clients : JsMap ClientInfo
  authenticatedClients : JsMap AuthInfo
  pollSubscriptions : JsMap (List String)
  deriving Repr, DecidableEq

/-- The module state at load: three empty maps. -/
def initialState : ServerState := ⟨[], [], []⟩

/-- An inbound frame after JSON parsing: `handleMessage` destructures
`{ type, pollId, token }` from the parsed object. A field that is absent
(or carries a JS-falsy value such as the empty string, which the source
treats identically via `if (!pollId)` / `if (!token)`) is `none`/`some ""`. -/
structure Frame where
  type : String
  pollId : Option String := none
  token : Option String := none
  deriving Repr, DecidableEq

/-- JS falsiness of an optional string field (`!pollId`, `!token`). -/
def strFalsy : Option String → Bool
  | none => true
  | some s => s.isEmpty

/-- Aggregate statistics payload (`getConnectionStats`). -/
structure ConnectionStats where
  totalClients : Nat
  authenticatedCount : Nat
  activeClients : Nat
  totalSubscriptions : Nat
  activePolls : Nat
  averageConnectionTime : Nat
  deriving Repr, DecidableEq

/-- A frame the server sends to the handled client (payload text elided,
tag and the fields the claims observe kept). -/
inductive OutMsg where
  | connectedMsg (clientId : String)
  | errorMsg (message : String)
  | authErrorMsg (message : String)
  | authenticatedMsg (userId : String)
  | subscribedMsg (pollId : String)
  | unsubscribedMsg (pollId : String)
  | pongMsg
  | statsMsg (stats : ConnectionStats)
  deriving Repr, DecidableEq

/-- `subscribeToPoll(clientId, pollId)`: create the topic entry when absent,
then add the client to its subscriber set. -/
def subscribeToPoll (clientId pollId : String)
    (subs : JsMap (List String)) : JsMap (List String) :=
  let subs1 := if mapHas subs pollId then subs else mapSet subs pollId []
  match mapGet subs1 pollId with
  | some l => mapSet subs1 pollId (setAdd l clientId)
  | none => subs1

/-- `unsubscribeFromPoll(clientId, pollId)`: delete the client from the
set of the topic and prune the topic entry if the set became empty. -/
def unsubscribeFromPoll (clientId pollId : String)
    (subs : JsMap (List String)) : JsMap (List String) :=
  match mapGet subs pollId with
  | some l =>
      let l2 := setDelete l clientId
      if l2.isEmpty then mapDelete subs pollId else mapSet subs pollId l2
  | none => subs

/-- `removeFromPollSubscriptions(clientId)`: delete the client from every
set of every topic, pruning entries whose set became empty. -/
def removeFromPollSubscriptions (clientId : String)
    (subs : JsMap (List String)) : JsMap (List String) :=
  (subs.map (fun e => (e.1, setDelete e.2 clientId))).filter
    (fun e => !e.2.isEmpty)

/-- `isClientAuthenticated(clientId)`. -/
def isClientAuthenticated (clientId : String) (s : ServerState) : Bool :=
  match mapGet s.clients clientId with
  | some ci => ci.authenticated
  | none => false

/-- The subscriber set the state holds for a topic (empty when the topic is
absent). -/
def subscribersOf (pollId : String) (s : ServerState) : List String :=
  (mapGet s.pollSubscriptions pollId).getD []

/-- `handleAuthentication(clientId, token, ws)`: missing/empty token is
rejected; otherwise the external verifier is consulted; on success the
client record (when present) gets `authenticated=true`, `userId`, and
`authenticatedAt`, and an `authenticatedClients` entry is written; on
verifier failure nothing changes; the connection is never closed here. -/
def handleAuthentication (verify : String → Option String) (now : Nat)
    (clientId : String) (token : Option String) (s : ServerState) :
    ServerState × List OutMsg :=
  if strFalsy token then
    (s, [.authErrorMsg "Token is required"])
  else
    match verify (token.getD "") with
    | some uid =>
        let s1 :=
          match mapGet s.clients clientId with
          | some ci =>
              let ci2 := { ci with authenticated := true, userId := some uid,
                                   authenticatedAt := some now }
              { s with clients := mapSet s.clients clientId ci2 }
          | none => s
        let auth2 := mapSet s1.authenticatedClients clientId ⟨uid, now⟩
        let s2 := { s1 with authenticatedClients := auth2 }
        (s2, [.authenticatedMsg uid])
    | none =>
        (s, [.authErrorMsg "Invalid or expired token"])

/-- `calculateAverageConnectionTime()` (JS float `Math.round` division
approximated by Nat division; no claim observes this value). -/
def calculateAverageConnectionTime (now : Nat) (s : ServerState) : Nat :=
  if s.clients.isEmpty then 0
  else (s.clients.foldl (fun acc e => acc + (now - e.2.connectedAt)) 0)
        / s.clients.length / 1000

/-- `getConnectionStats()`. -/
def getConnectionStats (now : Nat) (s : ServerState) : ConnectionStats where
  totalClients := s.clients.length
  authenticatedCount := (s.clients.filter (fun e => e.2.authenticated)).length
  activeClients :=
    (s.clients.filter (fun e => now - e.2.lastPing < 60000)).length
  totalSubscriptions := s.pollSubscriptions.foldl (fun acc e => acc + e.2.length) 0
  activePolls := s.pollSubscriptions.length
  averageConnectionTime := calculateAverageConnectionTime now s

/-- The liveness touch at the top of `handleMessage`: when the client record
exists, set `lastActivity` to now. -/
def touchActivity (now : Nat) (clientId : String) (s : ServerState) : ServerState :=
  match mapGet s.clients clientId with
  | some ci =>
      { s with clients := mapSet s.clients clientId ({ ci with lastActivity := some now }) }
  | none => s

/-- `handleMessage(clientId, data, ws)`: touch liveness, then dispatch on the
frame `type` string exactly as the source switch does. -/
def handleMessage (verify : String → Option String) (now : Nat)
    (clientId : String) (data : Frame) (s : ServerState) :
    ServerState × List OutMsg :=
  let s := touchActivity now clientId s
  if data.type = "authenticate" then
    handleAuthentication verify now clientId data.token s
  else if data.type = "subscribe" then
    if strFalsy data.pollId then
      (s, [.errorMsg "Poll ID is required for subscription"])
    else if !isClientAuthenticated clientId s then
      (s, [.errorMsg "Authentication required for poll subscriptions"])
    else
      let subs2 := subscribeToPoll clientId (data.pollId.getD "") s.pollSubscriptions
      ({ s with pollSubscriptions := subs2 }, [.subscribedMsg (data.pollId.getD "")])
  else if data.type = "unsubscribe" then
    if strFalsy data.pollId then
      (s, [.errorMsg "Poll ID is required for unsubscription"])
    else
      let subs2 := unsubscribeFromPoll clientId (data.pollId.getD "") s.pollSubscriptions
      ({ s with pollSubscriptions := subs2 }, [.unsubscribedMsg (data.pollId.getD "")])
  else if data.type = "ping" then
    (s, [.pongMsg])
  else if data.type = "getStats" then
    if isClientAuthenticated clientId s then
      (s, [.statsMsg (getConnectionStats now s)])
    else
      (s, [.errorMsg "Authentication required"])
  else
    (s, [.errorMsg "Unknown message type"])

/-- The message event callback of the transport: a frame that fails JSON parsing is
answered with an error and reaches no handler; a parsed frame goes to
`handleMessage`. The parse outcome is the `Option Frame` input. -/
def wsOnMessage (verify : String → Option String) (now : Nat)
    (clientId : String) (parsed : Option Frame) (s : ServerState) :
    ServerState × List OutMsg :=
  match parsed with
  | some data => handleMessage verify now clientId data s
  | none => (s, [.errorMsg "Invalid JSON format"])

/-- The close event callback of the transport: delete the client from `clients` and
`authenticatedClients` and strip it out of every poll subscription. -/
def handleClose (clientId : String) (s : ServerState) : ServerState where
  clients := mapDelete s.clients clientId
  authenticatedClients := mapDelete s.authenticatedClients clientId
  pollSubscriptions := removeFromPollSubscriptions clientId s.pollSubscriptions

/-- The 30-second ping interval body: while the transport is OPEN the server
sends a ping and refreshes the `lastPing` of the record with the send time. -/
def pingTick (now : Nat) (clientId : String) (s : ServerState) : ServerState :=
  match mapGet s.clients clientId with
  | some ci =>
      if ci.wsOpen then
        { s with clients := mapSet s.clients clientId ({ ci with lastPing := now }) }
      else s
  | none => s

/-- The pong event callback of the transport: refresh `lastPing`. -/
def pongEvent (now : Nat) (clientId : String) (s : ServerState) : ServerState :=
  match mapGet s.clients clientId with
  | some ci =>
      { s with clients := mapSet s.clients clientId ({ ci with lastPing := now }) }
  | none => s

/-- Digit characters of `Number.prototype.toString(36)`: 0-9 then a-z. -/
def base36Char (n : Nat) : Char :=
  if n < 10 then Char.ofNat (48 + n) else Char.ofNat (87 + n)

/-- Big-endian base-36 digits of a positive number (`fuel ≥ n` bounds the
digit count, making the recursion structural). -/
def natToBase36Core : Nat → Nat → List Char → List Char
  | 0, _, acc => acc
  | _ + 1, 0, acc => acc
  | fuel + 1, n, acc => natToBase36Core fuel (n / 36) (base36Char (n % 36) :: acc)

/-- `Date.now().toString(36)`. -/
def natToBase36 (n : Nat) : String :=
  if n = 0 then "0" else String.mk (natToBase36Core n n [])

/-- `generateClientId()`: the digit string of `Math.random().toString(36)`
after stripping the leading "0." (a nondeterministic input, passed in as
`randomPart`) concatenated with `Date.now().toString(36)`. -/
def generateClientId (randomPart : String) (nowMs : Nat) : String :=
  randomPart ++ natToBase36 nowMs

/-- The fresh record `websocketHandler` builds when a connection is accepted. -/
def freshClientInfo (now : Nat) : ClientInfo where
  wsOpen := true
  sendFails := false
  authenticated := false
  userId := none
  connectedAt := now
  lastPing := now
  lastActivity := none
  authenticatedAt := none

/-- The accept path of `websocketHandler`: generate an id, store the fresh
record with `clients.set` (no occupancy check), send the `connected` frame. -/
def registerClient (randomPart : String) (now : Nat) (s : ServerState) :
    String × ServerState × List OutMsg :=
  let clientId := generateClientId randomPart now
  (clientId,
   { s with clients := mapSet s.clients clientId (freshClientInfo now) },
   [.connectedMsg clientId])

/-- Result of `broadcastPollUpdate`: the mutated state, the ids for which
`ws.send` was invoked, the ids for which it succeeded, and the aggregate
counters the source logs. -/
structure BroadcastResult where
  state : ServerState
  attempted : List String
  delivered : List String
  successCount : Nat
  failCount : Nat
  deriving Repr, DecidableEq

/-- `subscribers.delete(clientId)` on the live set stored for `pollId`. -/
def subsDeleteAt (subs : JsMap (List String)) (pollId cid : String) :
    JsMap (List String) :=
  match mapGet subs pollId with
  | some l => mapSet subs pollId (setDelete l cid)
  | none => subs

/-- One iteration of the `subscribers.forEach` body in `broadcastPollUpdate`:
a present, OPEN client is sent to (on a throwing send it is deleted from
`clients` and from the live set of the topic); a missing or non-OPEN client is
deleted from the live set of the topic as a dead connection. The emptied set is
never pruned here. -/
def broadcastStep (pollId : String) (acc : BroadcastResult) (cid : String) :
    BroadcastResult :=
  match mapGet acc.state.clients cid with
  | some ci =>
      if ci.wsOpen then
        if ci.sendFails then
          let cl2 := mapDelete acc.state.clients cid
          let subs2 := subsDeleteAt acc.state.pollSubscriptions pollId cid
          let st2 := { acc.state with clients := cl2, pollSubscriptions := subs2 }
          { acc with state := st2, attempted := acc.attempted ++ [cid],
                     failCount := acc.failCount + 1 }
        else
          { acc with attempted := acc.attempted ++ [cid],
                     delivered := acc.delivered ++ [cid],
                     successCount := acc.successCount + 1 }
      else
        let subs2 := subsDeleteAt acc.state.pollSubscriptions pollId cid
        let st2 := { acc.state with pollSubscriptions := subs2 }
        { acc with state := st2, failCount := acc.failCount + 1 }
  | none =>
      let subs2 := subsDeleteAt acc.state.pollSubscriptions pollId cid
      let st2 := { acc.state with pollSubscriptions := subs2 }
      { acc with state := st2, failCount := acc.failCount + 1 }

/-- `broadcastPollUpdate(pollId, pollData)`: no-op when the topic is absent;
otherwise iterate the subscriber set (JS `Set.forEach` visits the insertion
-ordered elements present at the start, since only the current element is
ever deleted mid-iteration). Per-subscriber failures are absorbed: the
function always returns normally. -/
def broadcastPollUpdate (pollId : String) (s : ServerState) : BroadcastResult :=
  match mapGet s.pollSubscriptions pollId with
  | none => ⟨s, [], [], 0, 0⟩
  | some subs => subs.foldl (broadcastStep pollId) ⟨s, [], [], 0, 0⟩

/-- The inactivity threshold of `cleanupInactiveConnections`: 5 minutes. -/
def inactivityThreshold : Nat := 5 * 60 * 1000

/-- `lastActivity || lastPing || connectedAt` read by the sweeper:
`lastActivity` when any frame was handled, else `lastPing` (always set at
accept, so the `connectedAt` fallback of the source is unreachable). -/
def effectiveLastActivity (ci : ClientInfo) : Nat :=
  match ci.lastActivity with
  | some t => t
  | none => ci.lastPing

/-- One iteration of the sweeper loop: an expired entry has its transport
closed and is deleted from `clients`, `authenticatedClients` and all poll
subscriptions (the same three deletions the close handler performs). -/
def cleanupStep (now : Nat) (s : ServerState) (e : String × ClientInfo) :
    ServerState :=
  if now - effectiveLastActivity e.2 > inactivityThreshold then
    handleClose e.1 s
  else s

/-- `cleanupInactiveConnections()`: sweep every entry of `clients` (the
`for...of` visits the entries present at the start; only the current entry
is ever deleted mid-iteration). -/
def cleanupInactiveConnections (now : Nat) (s : ServerState) : ServerState :=
  s.clients.foldl (cleanupStep now) s

/-- The sweep period: the sweeper runs every 2 minutes. -/
def sweepPeriod : Nat := 2 * 60 * 1000

/-- The subscriber set a raw subscription map holds for a topic. -/
def subsAt (m : JsMap (List String)) (p : String) : List String :=
  (mapGet m p).getD []

/-- The no-empty-topics invariant of the spec: no topic entry carries an
empty subscriber set. -/
def noEmptyTopics (m : JsMap (List String)) : Prop :=
  ∀ e ∈ m, e.2 ≠ []

/-- Keys of a map are pairwise distinct (every state reachable through the
JS Map API satisfies this). -/
def keysNodup {α : Type} (m : JsMap α) : Prop :=
  (m.map Prod.fst).Nodup

/-- A connection id is fully removed: absent from the clients registry and
from every topic subscriber set. -/
def fullyRemoved (c : String) (s : ServerState) : Prop :=
  mapGet s.clients c = none ∧ ∀ e ∈ s.pollSubscriptions, c ∉ e.2

instance (m : JsMap (List String)) : Decidable (noEmptyTopics m) :=
  inferInstanceAs (Decidable (∀ e ∈ m, e.2 ≠ []))

instance {α : Type} (m : JsMap α) : Decidable (keysNodup m) :=
  inferInstanceAs (Decidable (m.map Prod.fst).Nodup)

instance (c : String) (s : ServerState) : Decidable (fullyRemoved c s) :=
  inferInstanceAs
    (Decidable (mapGet s.clients c = none ∧ ∀ e ∈ s.pollSubscriptions, c ∉ e.2))

/-- The client record after the liveness touch at the top of
`handleMessage` (`clientInfo.lastActivity = new Date()`). -/
def touchedCi (ci : ClientInfo) (now : Nat) : ClientInfo :=
  { ci with lastActivity := some now }

/-- The client record after `handleAuthentication` succeeds (the `ci2`
update of the source: authenticated, userId, authenticatedAt). -/
def authedCi (ci : ClientInfo) (uid : String) (now : Nat) : ClientInfo :=
  { ci with authenticated := true, userId := some uid,
            authenticatedAt := some now }

/- Concrete fixtures: client records and states used to evaluate the
   operations at specific inputs. -/

/-- A live connection whose transport accepts sends, not authenticated. -/
def okCi : ClientInfo := ⟨true, false, false, none, 0, 0, none, none⟩

/-- A live, already-authenticated connection. -/
def authCi : ClientInfo := ⟨true, false, true, none, 0, 0, none, none⟩

/-- A connection whose transport is OPEN but whose send throws (the
"simulated dead transport" of the spec failure scenario). -/
def deadCi : ClientInfo := ⟨true, true, false, none, 0, 0, none, none⟩

/-- A verifier accepting exactly the token "good" for subject "u1". -/
def goodVerify : String → Option String :=
  fun t => if t = "good" then some "u1" else none

/-- State with one dead client subscribed to topics "t1" and "t2". -/
def twoTopicState : ServerState :=
  ⟨[("b", deadCi)], [], [("t1", ["b"]), ("t2", ["b"])]⟩

/-- State with one dead client subscribed to topic "t". -/
def oneDeadState : ServerState :=
  ⟨[("b", deadCi)], [], [("t", ["b"])]⟩

/-- The state after accepting a connection at time 0 with random digits
"abc" and then letting the 30-second ping interval fire 14 times (through
t = 420000) with no inbound frame and no pong from the client. -/
def silentPingedState : ServerState :=
  ((List.range 14).map (fun i => 30000 * (i + 1))).foldl
    (fun st t => pingTick t "abc0" st)
    (registerClient "abc" 0 initialState).2.1

/-- The state after accepting a connection with random digits "xyz" at
millisecond 5 and authenticating it with a valid token. -/
def collisionBaseState : ServerState :=
  (handleMessage goodVerify 6 "xyz5" ⟨"authenticate", none, some "good"⟩
    (registerClient "xyz" 5 initialState).2.1).1

/- ----------------------------------------------------------------- -/
/- Lemmas about the JS Map / Set model.                              -/
/- ----------------------------------------------------------------- -/

theorem mapGet_nil {α : Type} (k : String) : mapGet ([] : JsMap α) k = none := rfl

theorem mapGet_cons {α : Type} (e : String × α) (es : JsMap α) (k : String) :
    mapGet (e :: es) k = if e.1 = k then some e.2 else mapGet es k := rfl

theorem mapGet_mapSet_self {α : Type} (m : JsMap α) (k : String) (v : α) :
    mapGet (mapSet m k v) k = some v := by
  induction m with
  | nil => simp [mapSet, mapGet]
  | cons e es ih =>
      by_cases h : e.1 = k
      · simp [mapSet, h, mapGet]
      · simp [mapSet, h, mapGet, ih]

theorem mapGet_mapSet_ne {α : Type} (m : JsMap α) {k k' : String} (v : α)
    (h : k' ≠ k) : mapGet (mapSet m k v) k' = mapGet m k' := by
  have h2 : k ≠ k' := Ne.symm h
  induction m with
  | nil => simp [mapSet, mapGet, h2]
  | cons e es ih =>
      by_cases he : e.1 = k
      · subst he
        simp [mapSet, mapGet_cons, h2]
      · simp [mapSet, he, mapGet_cons, ih]

theorem mapGet_mapDelete_self {α : Type} (m : JsMap α) (k : String) :
    mapGet (mapDelete m k) k = none := by
  induction m with
  | nil => rfl
  | cons e es ih =>
      by_cases h : e.1 = k
      · simpa [mapDelete, List.filter_cons, h] using ih
      · simpa [mapDelete, List.filter_cons, h, mapGet_cons] using ih

theorem mapGet_mapDelete_ne {α : Type} (m : JsMap α) {k k' : String}
    (h : k' ≠ k) : mapGet (mapDelete m k) k' = mapGet m k' := by
  have h2 : k ≠ k' := Ne.symm h
  induction m with
  | nil => rfl
  | cons e es ih =>
      by_cases he : e.1 = k
      · simpa [mapDelete, List.filter_cons, he, mapGet_cons, h2] using ih
      · by_cases hk2 : e.1 = k'
        · simp [mapDelete, List.filter_cons, he, mapGet_cons, hk2, h]
        · simpa [mapDelete, List.filter_cons, he, mapGet_cons, hk2] using ih

theorem mapGet_mapDelete_of_none {α : Type} (m : JsMap α) {c : String}
    (k : String) (h : mapGet m c = none) : mapGet (mapDelete m k) c = none := by
  by_cases hk : c = k
  · subst hk; exact mapGet_mapDelete_self m c
  · rw [mapGet_mapDelete_ne m hk]; exact h

theorem mapGet_mem {α : Type} {m : JsMap α} {p : String} {v : α}
    (h : mapGet m p = some v) : (p, v) ∈ m := by
  induction m with
  | nil => simp [mapGet] at h
  | cons e es ih =>
      by_cases he : e.1 = p
      · rw [mapGet_cons, if_pos he] at h
        have hv : e.2 = v := Option.some.inj h
        have hev : e = (p, v) := by
          calc e = (e.1, e.2) := rfl
            _ = (p, v) := by rw [he, hv]
        rw [← hev]
        exact List.mem_cons_self e es
      · rw [mapGet_cons, if_neg he] at h
        exact List.mem_cons_of_mem e (ih h)

theorem mapGet_none_forall {α : Type} {m : JsMap α} {p : String}
    (h : mapGet m p = none) : ∀ e ∈ m, e.1 ≠ p := by
  induction m with
  | nil => intro e he; simp at he
  | cons e es ih =>
      intro f hf
      by_cases he : e.1 = p
      · rw [mapGet_cons, if_pos he] at h; exact absurd h (by simp)
      · rw [mapGet_cons, if_neg he] at h
        rcases List.mem_cons.mp hf with hfe | hfes
        · rw [hfe]; exact he
        · exact ih h f hfes

theorem mem_mapSet {α : Type} {m : JsMap α} {k : String} {v : α} {e : String × α}
    (h : e ∈ mapSet m k v) : e ∈ m ∨ e = (k, v) := by
  induction m with
  | nil => simp [mapSet] at h; right; exact h
  | cons f fs ih =>
      by_cases hf : f.1 = k
      · rw [mapSet, if_pos hf] at h
        rcases List.mem_cons.mp h with h1 | h2
        · right; exact h1
        · left; exact List.mem_cons_of_mem f h2
      · rw [mapSet, if_neg hf] at h
        rcases List.mem_cons.mp h with h1 | h2
        · left; rw [h1]; exact List.mem_cons_self f fs
        · rcases ih h2 with h3 | h4
          · left; exact List.mem_cons_of_mem f h3
          · right; exact h4

theorem mapSet_append_absent {α : Type} {m : JsMap α} {p : String} (x v : α)
    (h : mapGet m p = none) : mapSet (m ++ [(p, x)]) p v = m ++ [(p, v)] := by
  induction m with
  | nil => simp [mapSet]
  | cons e es ih =>
      rw [mapGet_cons] at h
      by_cases he : e.1 = p
      · rw [if_pos he] at h; exact absurd h (by simp)
      · rw [if_neg he] at h
        simp only [List.cons_append, mapSet, if_neg he]
        exact congrArg (fun t => e :: t) (ih h)

theorem mapSet_get_self {α : Type} {m : JsMap α} {k : String} {v : α}
    (h : mapGet m k = some v) : mapSet m k v = m := by
  induction m with
  | nil => simp [mapGet] at h
  | cons e es ih =>
      by_cases he : e.1 = k
      · rw [mapGet_cons, if_pos he] at h
        have hv : e.2 = v := Option.some.inj h
        rw [mapSet, if_pos he, ← he, ← hv]
      · rw [mapGet_cons, if_neg he] at h
        rw [mapSet, if_neg he, ih h]

theorem mapGet_nodup_unique {α : Type} {m : JsMap α} {c : String} {v : α}
    (hn : keysNodup m) (h : mapGet m c = some v) :
    ∀ e ∈ m, e.1 = c → e.2 = v := by
  induction m with
  | nil => intro e he; simp at he
  | cons e es ih =>
      have hn2 : e.1 ∉ es.map Prod.fst ∧ keysNodup es := by
        simpa [keysNodup, List.nodup_cons] using hn
      intro f hf hfc
      by_cases he : e.1 = c
      · rw [mapGet_cons, if_pos he] at h
        have hv : e.2 = v := Option.some.inj h
        rcases List.mem_cons.mp hf with h1 | h2
        · rw [h1]; exact hv
        · exfalso
          have hmem : f.1 ∈ es.map Prod.fst := List.mem_map_of_mem Prod.fst h2
          rw [hfc, ← he] at hmem
          exact hn2.1 hmem
      · rw [mapGet_cons, if_neg he] at h
        rcases List.mem_cons.mp hf with h1 | h2
        · exact absurd (h1 ▸ hfc) he
        · exact ih hn2.2 h f h2 hfc

theorem mem_setAdd_iff {l : List String} {x y : String} :
    y ∈ setAdd l x ↔ y ∈ l ∨ y = x := by
  by_cases h : l.contains x
  · have hx : x ∈ l := by simpa using h
    simp only [setAdd, if_pos h]
    constructor
    · exact Or.inl
    · rintro (hy | rfl)
      · exact hy
      · exact hx
  · have hx : x ∉ l := by simpa using h
    simp [setAdd, hx]

theorem mem_setAdd_self (l : List String) (x : String) : x ∈ setAdd l x :=
  mem_setAdd_iff.mpr (Or.inr rfl)

theorem setAdd_of_mem {l : List String} {x : String} (h : x ∈ l) :
    setAdd l x = l := by
  simp [setAdd, h]

theorem setAdd_ne_nil (l : List String) (x : String) : setAdd l x ≠ [] := by
  intro hnil
  exact (List.mem_nil_iff x).mp (hnil ▸ mem_setAdd_self l x)

theorem mem_setDelete_iff {l : List String} {x y : String} :
    y ∈ setDelete l x ↔ y ∈ l ∧ y ≠ x := by
  simp [setDelete, List.mem_filter]

theorem not_mem_setDelete_self (l : List String) (x : String) :
    x ∉ setDelete l x := by
  intro h
  exact (mem_setDelete_iff.mp h).2 rfl

theorem not_mem_setDelete {l : List String} {c : String} (x : String)
    (h : c ∉ l) : c ∉ setDelete l x := by
  intro h2
  exact h (mem_setDelete_iff.mp h2).1

/- Lemmas about removeFromPollSubscriptions (unsubscribeAll). -/

theorem rfps_mem_shape {c : String} {m : JsMap (List String)}
    {e : String × List String} (h : e ∈ removeFromPollSubscriptions c m) :
    ∃ l₀, (e.1, l₀) ∈ m ∧ e.2 = setDelete l₀ c := by
  have h1 : e ∈ m.map (fun e => (e.1, setDelete e.2 c)) :=
    List.mem_of_mem_filter h
  rcases List.mem_map.mp h1 with ⟨a, ha, hae⟩
  exact ⟨a.2, by rw [← hae]; exact ha, by rw [← hae]⟩

theorem rfps_not_mem (c : String) (m : JsMap (List String)) :
    ∀ e ∈ removeFromPollSubscriptions c m, c ∉ e.2 := by
  intro e he
  rcases rfps_mem_shape he with ⟨l₀, _, h2⟩
  rw [h2]
  exact not_mem_setDelete_self l₀ c

theorem rfps_pres_not_mem {c : String} {m : JsMap (List String)} (d : String)
    (h : ∀ e ∈ m, c ∉ e.2) :
    ∀ e ∈ removeFromPollSubscriptions d m, c ∉ e.2 := by
  intro e he
  rcases rfps_mem_shape he with ⟨l₀, h1, h2⟩
  rw [h2]
  exact not_mem_setDelete d (h (e.1, l₀) h1)

theorem rfps_noEmpty (c : String) (m : JsMap (List String)) :
    noEmptyTopics (removeFromPollSubscriptions c m) := by
  intro e he
  have h2 := List.of_mem_filter he
  simp only [Bool.not_eq_true'] at h2
  intro hnil
  rw [hnil] at h2
  simp at h2

/- Lemmas about subsDeleteAt (the live Set.delete of the broadcast loop). -/

theorem subsDeleteAt_get_ne (m : JsMap (List String)) {p T : String}
    (cid : String) (h : p ≠ T) :
    mapGet (subsDeleteAt m T cid) p = mapGet m p := by
  unfold subsDeleteAt
  cases hT : mapGet m T with
  | none => rfl
  | some l => exact mapGet_mapSet_ne m (setDelete l cid) h

theorem subsAt_subsDeleteAt_self (m : JsMap (List String)) (T cid : String) :
    cid ∉ subsAt (subsDeleteAt m T cid) T := by
  unfold subsDeleteAt
  cases hT : mapGet m T with
  | none =>
      simp [subsAt, hT]
  | some l =>
      simp only [subsAt, mapGet_mapSet_self, Option.getD_some]
      exact not_mem_setDelete_self l cid

theorem subsAt_subsDeleteAt_pres {m : JsMap (List String)} {c T : String}
    (cid : String) (h : c ∉ subsAt m T) :
    c ∉ subsAt (subsDeleteAt m T cid) T := by
  unfold subsDeleteAt
  cases hT : mapGet m T with
  | none => exact h
  | some l =>
      simp only [subsAt, mapGet_mapSet_self, Option.getD_some]
      exact not_mem_setDelete cid (by simpa [subsAt, hT] using h)

theorem subsDeleteAt_all_not_mem {m : JsMap (List String)} {c : String}
    (T cid : String) (h : ∀ e ∈ m, c ∉ e.2) :
    ∀ e ∈ subsDeleteAt m T cid, c ∉ e.2 := by
  unfold subsDeleteAt
  cases hT : mapGet m T with
  | none => exact h
  | some l =>
      intro e he
      rcases mem_mapSet he with h1 | h1
      · exact h e h1
      · rw [h1]
        exact not_mem_setDelete cid (h (T, l) (mapGet_mem hT))

/- Lemmas about the broadcast fan-out fold. -/

theorem broadcastStep_clients (p : String) (acc : BroadcastResult) (cid : String) :
    (broadcastStep p acc cid).state.clients = acc.state.clients ∨
    (broadcastStep p acc cid).state.clients = mapDelete acc.state.clients cid := by
  unfold broadcastStep
  cases mapGet acc.state.clients cid with
  | none => left; rfl
  | some ci =>
      cases h1 : ci.wsOpen with
      | false => left; simp [h1]
      | true =>
          cases h2 : ci.sendFails with
          | false => left; simp [h1, h2]
          | true => right; simp [h1, h2]

theorem broadcastStep_subs (p : String) (acc : BroadcastResult) (cid : String) :
    (broadcastStep p acc cid).state.pollSubscriptions = acc.state.pollSubscriptions ∨
    (broadcastStep p acc cid).state.pollSubscriptions =
      subsDeleteAt acc.state.pollSubscriptions p cid := by
  unfold broadcastStep
  cases mapGet acc.state.clients cid with
  | none => right; rfl
  | some ci =>
      cases h1 : ci.wsOpen with
      | false => right; simp [h1]
      | true =>
          cases h2 : ci.sendFails with
          | false => left; simp [h1, h2]
          | true => right; simp [h1, h2]

theorem broadcastStep_attempted (p : String) (acc : BroadcastResult) (cid : String) :
    (broadcastStep p acc cid).attempted = acc.attempted ∨
    (broadcastStep p acc cid).attempted = acc.attempted ++ [cid] := by
  unfold broadcastStep
  cases mapGet acc.state.clients cid with
  | none => left; rfl
  | some ci =>
      cases h1 : ci.wsOpen with
      | false => left; simp [h1]
      | true =>
          cases h2 : ci.sendFails with
          | false => right; simp [h1, h2]
          | true => right; simp [h1, h2]

theorem broadcastStep_fail_clients {acc : BroadcastResult} {cid : String}
    {ci : ClientInfo} (p : String) (hget : mapGet acc.state.clients cid = some ci)
    (hopen : ci.wsOpen = true) (hfail : ci.sendFails = true) :
    (broadcastStep p acc cid).state.clients = mapDelete acc.state.clients cid := by
  unfold broadcastStep
  rw [hget]
  simp [hopen, hfail]

theorem broadcastStep_fail_subs {acc : BroadcastResult} {cid : String}
    {ci : ClientInfo} (p : String) (hget : mapGet acc.state.clients cid = some ci)
    (hopen : ci.wsOpen = true) (hfail : ci.sendFails = true) :
    (broadcastStep p acc cid).state.pollSubscriptions =
      subsDeleteAt acc.state.pollSubscriptions p cid := by
  unfold broadcastStep
  rw [hget]
  simp [hopen, hfail]

theorem bfold_clients_none {p x : String} (l : List String) (acc : BroadcastResult)
    (h : mapGet acc.state.clients x = none) :
    mapGet ((l.foldl (broadcastStep p) acc)).state.clients x = none := by
  induction l generalizing acc with
  | nil => exact h
  | cons cid rest ih =>
      rw [List.foldl_cons]
      apply ih
      rcases broadcastStep_clients p acc cid with hc | hc <;> rw [hc]
      · exact h
      · exact mapGet_mapDelete_of_none acc.state.clients cid h

theorem bfold_attempted {p : String} (l : List String) (acc : BroadcastResult) :
    ∀ x ∈ ((l.foldl (broadcastStep p) acc)).attempted,
      x ∈ acc.attempted ∨ x ∈ l := by
  induction l generalizing acc with
  | nil => intro x hx; exact Or.inl hx
  | cons cid rest ih =>
      intro x hx
      rw [List.foldl_cons] at hx
      rcases ih (broadcastStep p acc cid) x hx with h1 | h1
      · rcases broadcastStep_attempted p acc cid with ha | ha
        · rw [ha] at h1; exact Or.inl h1
        · rw [ha] at h1
          rcases List.mem_append.mp h1 with h2 | h2
          · exact Or.inl h2
          · right
            rw [List.mem_singleton.mp h2]
            exact List.mem_cons_self cid rest
      · exact Or.inr (List.mem_cons_of_mem cid h1)

theorem bfold_subs_get_ne {p p' : String} (h : p' ≠ p) (l : List String)
    (acc : BroadcastResult) :
    mapGet ((l.foldl (broadcastStep p) acc)).state.pollSubscriptions p' =
      mapGet acc.state.pollSubscriptions p' := by
  induction l generalizing acc with
  | nil => rfl
  | cons cid rest ih =>
      rw [List.foldl_cons, ih]
      rcases broadcastStep_subs p acc cid with hs | hs <;> rw [hs]
      exact subsDeleteAt_get_ne acc.state.pollSubscriptions cid h

theorem bfold_subs_not_mem {p c : String} (l : List String) (acc : BroadcastResult)
    (h : ∀ e ∈ acc.state.pollSubscriptions, c ∉ e.2) :
    ∀ e ∈ ((l.foldl (broadcastStep p) acc)).state.pollSubscriptions, c ∉ e.2 := by
  induction l generalizing acc with
  | nil => exact h
  | cons cid rest ih =>
      rw [List.foldl_cons]
      apply ih
      rcases broadcastStep_subs p acc cid with hs | hs <;> rw [hs]
      · exact h
      · exact subsDeleteAt_all_not_mem p cid h

theorem bfold_subsAt_not_mem {p c : String} (l : List String) (acc : BroadcastResult)
    (h : c ∉ subsAt acc.state.pollSubscriptions p) :
    c ∉ subsAt ((l.foldl (broadcastStep p) acc)).state.pollSubscriptions p := by
  induction l generalizing acc with
  | nil => exact h
  | cons cid rest ih =>
      rw [List.foldl_cons]
      apply ih
      rcases broadcastStep_subs p acc cid with hs | hs <;> rw [hs]
      · exact h
      · exact subsAt_subsDeleteAt_pres cid h

theorem bfold_kills {p b : String} {bi : ClientInfo} (l : List String)
    (acc : BroadcastResult) (hmem : b ∈ l)
    (hget : mapGet acc.state.clients b = some bi)
    (hopen : bi.wsOpen = true) (hfail : bi.sendFails = true) :
    mapGet ((l.foldl (broadcastStep p) acc)).state.clients b = none ∧
    b ∉ subsAt ((l.foldl (broadcastStep p) acc)).state.pollSubscriptions p := by
  induction l generalizing acc with
  | nil => exact absurd hmem (List.not_mem_nil b)
  | cons cid rest ih =>
      rw [List.foldl_cons]
      by_cases hcb : cid = b
      · subst hcb
        have h1 : mapGet (broadcastStep p acc cid).state.clients cid = none := by
          rw [broadcastStep_fail_clients p hget hopen hfail]
          exact mapGet_mapDelete_self acc.state.clients cid
        have h2 : cid ∉ subsAt (broadcastStep p acc cid).state.pollSubscriptions p := by
          rw [broadcastStep_fail_subs p hget hopen hfail]
          exact subsAt_subsDeleteAt_self acc.state.pollSubscriptions p cid
        exact ⟨bfold_clients_none rest (broadcastStep p acc cid) h1,
               bfold_subsAt_not_mem rest (broadcastStep p acc cid) h2⟩
      · have hb : b ∈ rest := by
          rcases List.mem_cons.mp hmem with h1 | h1
          · exact absurd h1.symm hcb
          · exact h1
        apply ih (broadcastStep p acc cid) hb
        rcases broadcastStep_clients p acc cid with hc | hc <;> rw [hc]
        · exact hget
        · rw [mapGet_mapDelete_ne acc.state.clients (fun hh => hcb hh.symm)]
          exact hget

theorem broadcast_attempted_sub (p : String) (s : ServerState) :
    ∀ x ∈ (broadcastPollUpdate p s).attempted, x ∈ subsAt s.pollSubscriptions p := by
  unfold broadcastPollUpdate
  cases hsub : mapGet s.pollSubscriptions p with
  | none => intro x hx; exact absurd hx (List.not_mem_nil x)
  | some subs =>
      intro x hx
      rcases bfold_attempted subs ⟨s, [], [], 0, 0⟩ x hx with h1 | h1
      · exact absurd h1 (List.not_mem_nil x)
      · simpa [subsAt, hsub] using h1

/- Lemmas about disconnect cleanup and the liveness sweeper. -/

theorem handleClose_fullyRemoved (c : String) (s : ServerState) :
    fullyRemoved c (handleClose c s) :=
  ⟨mapGet_mapDelete_self s.clients c, rfps_not_mem c s.pollSubscriptions⟩

theorem fullyRemoved_handleClose {c : String} (d : String) {s : ServerState}
    (h : fullyRemoved c s) : fullyRemoved c (handleClose d s) :=
  ⟨mapGet_mapDelete_of_none s.clients d h.1, rfps_pres_not_mem d h.2⟩

theorem fullyRemoved_cleanupStep {c : String} (now : Nat)
    (e : String × ClientInfo) {s : ServerState} (h : fullyRemoved c s) :
    fullyRemoved c (cleanupStep now s e) := by
  unfold cleanupStep
  by_cases hexp : now - effectiveLastActivity e.2 > inactivityThreshold
  · rw [if_pos hexp]
    exact fullyRemoved_handleClose e.1 h
  · rw [if_neg hexp]
    exact h

theorem fullyRemoved_cleanup_fold {c : String} (now : Nat)
    (l : List (String × ClientInfo)) (acc : ServerState)
    (h : fullyRemoved c acc) :
    fullyRemoved c (l.foldl (cleanupStep now) acc) := by
  induction l generalizing acc with
  | nil => exact h
  | cons e rest ih =>
      rw [List.foldl_cons]
      exact ih _ (fullyRemoved_cleanupStep now e h)

theorem cleanup_fold_evicts {c : String} {ci : ClientInfo} (now : Nat)
    (l : List (String × ClientInfo)) (acc : ServerState)
    (hmem : (c, ci) ∈ l)
    (hexp : now - effectiveLastActivity ci > inactivityThreshold) :
    fullyRemoved c (l.foldl (cleanupStep now) acc) := by
  induction l generalizing acc with
  | nil => exact absurd hmem (List.not_mem_nil _)
  | cons e rest ih =>
      rw [List.foldl_cons]
      rcases List.mem_cons.mp hmem with h1 | h1
      · have hstep : cleanupStep now acc e = handleClose c acc := by
          unfold cleanupStep
          rw [← h1]
          rw [if_pos hexp]
        rw [hstep]
        exact fullyRemoved_cleanup_fold now rest _ (handleClose_fullyRemoved c acc)
      · exact ih _ h1

theorem cleanup_fold_keeps {c : String} {v : ClientInfo} (now : Nat)
    (l : List (String × ClientInfo)) (acc : ServerState)
    (hl : ∀ e ∈ l, e.1 = c → ¬(now - effectiveLastActivity e.2 > inactivityThreshold))
    (hacc : mapGet acc.clients c = some v) :
    mapGet ((l.foldl (cleanupStep now) acc)).clients c = some v := by
  induction l generalizing acc with
  | nil => exact hacc
  | cons e rest ih =>
      rw [List.foldl_cons]
      apply ih _ (fun f hf => hl f (List.mem_cons_of_mem e hf))
      unfold cleanupStep
      by_cases he : e.1 = c
      · rw [if_neg (hl e (List.mem_cons_self e rest) he)]
        exact hacc
      · by_cases hexp : now - effectiveLastActivity e.2 > inactivityThreshold
        · rw [if_pos hexp]
          show mapGet (mapDelete acc.clients e.1) c = some v
          rw [mapGet_mapDelete_ne acc.clients (fun hh => he hh.symm)]
          exact hacc
        · rw [if_neg hexp]
          exact hacc

/- Lemmas about the subscription index operations. -/

theorem mapSet_absent {α : Type} {m : JsMap α} {p : String} (v : α)
    (h : mapGet m p = none) : mapSet m p v = m ++ [(p, v)] := by
  induction m with
  | nil => rfl
  | cons e es ih =>
      rw [mapGet_cons] at h
      by_cases he : e.1 = p
      · rw [if_pos he] at h
        exact absurd h (by simp)
      · rw [if_neg he] at h
        rw [mapSet, if_neg he, ih h, List.cons_append]

theorem subscribeToPoll_eq_of_get {c p : String} {m : JsMap (List String)}
    {l : List String} (h : mapGet m p = some l) :
    subscribeToPoll c p m = mapSet m p (setAdd l c) := by
  have hhas : mapHas m p = true := by simp [mapHas, h]
  simp only [subscribeToPoll]
  rw [if_pos hhas, h]

theorem subscribeToPoll_eq_of_absent {c p : String} {m : JsMap (List String)}
    (h : mapGet m p = none) :
    subscribeToPoll c p m = m ++ [(p, setAdd [] c)] := by
  have hhas : ¬mapHas m p = true := by simp [mapHas, h]
  simp only [subscribeToPoll]
  rw [if_neg hhas, mapGet_mapSet_self]
  show mapSet (mapSet m p []) p (setAdd [] c) = m ++ [(p, setAdd [] c)]
  rw [mapSet_absent ([] : List String) h,
      mapSet_append_absent [] (setAdd [] c) h]

theorem subscribeToPoll_get_self (c p : String) (m : JsMap (List String)) :
    mapGet (subscribeToPoll c p m) p =
      some (setAdd ((mapGet m p).getD []) c) := by
  cases hmp : mapGet m p with
  | some l =>
      rw [subscribeToPoll_eq_of_get hmp, mapGet_mapSet_self]
      rfl
  | none =>
      rw [subscribeToPoll_eq_of_absent hmp,
          ← mapSet_absent (setAdd [] c) hmp, mapGet_mapSet_self]
      rfl

theorem subscribeToPoll_noop {c p : String} {m : JsMap (List String)}
    {l : List String} (h : mapGet m p = some l) (hc : c ∈ l) :
    subscribeToPoll c p m = m := by
  rw [subscribeToPoll_eq_of_get h, setAdd_of_mem hc, mapSet_get_self h]

theorem subscribeToPoll_idem (c p : String) (m : JsMap (List String)) :
    subscribeToPoll c p (subscribeToPoll c p m) = subscribeToPoll c p m :=
  subscribeToPoll_noop (subscribeToPoll_get_self c p m) (mem_setAdd_self _ c)

theorem subscribeToPoll_noEmpty (c p : String) {m : JsMap (List String)}
    (h : noEmptyTopics m) : noEmptyTopics (subscribeToPoll c p m) := by
  cases hmp : mapGet m p with
  | some l =>
      rw [subscribeToPoll_eq_of_get hmp]
      intro e he
      rcases mem_mapSet he with h1 | h1
      · exact h e h1
      · rw [h1]
        exact setAdd_ne_nil l c
  | none =>
      rw [subscribeToPoll_eq_of_absent hmp]
      intro e he
      rcases List.mem_append.mp he with h1 | h1
      · exact h e h1
      · rw [List.mem_singleton.mp h1]
        exact setAdd_ne_nil [] c

theorem unsubscribeFromPoll_noEmpty (c p : String) {m : JsMap (List String)}
    (h : noEmptyTopics m) : noEmptyTopics (unsubscribeFromPoll c p m) := by
  unfold unsubscribeFromPoll
  cases hmp : mapGet m p with
  | none => exact h
  | some l =>
      show noEmptyTopics
        (if (setDelete l c).isEmpty then mapDelete m p else mapSet m p (setDelete l c))
      by_cases he : (setDelete l c).isEmpty
      · rw [if_pos he]
        intro e hmem
        exact h e (List.mem_of_mem_filter hmem)
      · rw [if_neg he]
        intro e hmem
        rcases mem_mapSet hmem with h1 | h1
        · exact h e h1
        · rw [h1]
          intro hnil
          have h2 : setDelete l c = [] := hnil
          rw [h2] at he
          exact he rfl

/- Equation lemmas for the frame handlers. -/

theorem touchActivity_clients_get {now : Nat} {c : String} {s : ServerState}
    {ci : ClientInfo} (h : mapGet s.clients c = some ci) :
    mapGet (touchActivity now c s).clients c =
      some { ci with lastActivity := some now } := by
  unfold touchActivity
  rw [h]
  exact mapGet_mapSet_self s.clients c _

theorem touchActivity_clients_get_ne {now : Nat} {c c2 : String} {s : ServerState}
    (h : c2 ≠ c) :
    mapGet (touchActivity now c s).clients c2 = mapGet s.clients c2 := by
  unfold touchActivity
  cases mapGet s.clients c with
  | none => rfl
  | some ci => exact mapGet_mapSet_ne s.clients _ h

theorem touchActivity_subs (now : Nat) (c : String) (s : ServerState) :
    (touchActivity now c s).pollSubscriptions = s.pollSubscriptions := by
  unfold touchActivity
  cases mapGet s.clients c <;> rfl

theorem touchActivity_authMap (now : Nat) (c : String) (s : ServerState) :
    (touchActivity now c s).authenticatedClients = s.authenticatedClients := by
  unfold touchActivity
  cases mapGet s.clients c <;> rfl

theorem isClientAuthenticated_touch {now : Nat} {c : String} {s : ServerState}
    {ci : ClientInfo} (h : mapGet s.clients c = some ci) :
    isClientAuthenticated c (touchActivity now c s) = ci.authenticated := by
  unfold isClientAuthenticated
  rw [touchActivity_clients_get h]

theorem strFalsy_some_false {p : String} (hp : p ≠ "") :
    strFalsy (some p) = false := by
  show p.isEmpty = false
  rw [Bool.eq_false_iff]
  intro hb
  exact hp ((String.isEmpty_iff p).mp hb)

theorem handleAuthentication_missing (verify : String → Option String)
    (now : Nat) (c : String) (s : ServerState) :
    handleAuthentication verify now c none s =
      (s, [.authErrorMsg "Token is required"]) := rfl

theorem handleAuthentication_bad {verify : String → Option String}
    {now : Nat} {c tk : String} {s : ServerState}
    (htk : tk ≠ "") (hv : verify tk = none) :
    handleAuthentication verify now c (some tk) s =
      (s, [.authErrorMsg "Invalid or expired token"]) := by
  unfold handleAuthentication
  rw [if_neg (by rw [strFalsy_some_false htk]; exact Bool.false_ne_true)]
  show (match verify tk with
    | some uid => _
    | none => (s, [OutMsg.authErrorMsg "Invalid or expired token"])) = _
  rw [hv]

theorem handleAuthentication_good {verify : String → Option String}
    {now : Nat} {c tk uid : String} {s : ServerState} {ci : ClientInfo}
    (htk : tk ≠ "") (hv : verify tk = some uid)
    (hc : mapGet s.clients c = some ci) :
    handleAuthentication verify now c (some tk) s =
      ({ s with
          clients := mapSet s.clients c
            { ci with authenticated := true, userId := some uid,
                      authenticatedAt := some now },
          authenticatedClients := mapSet s.authenticatedClients c ⟨uid, now⟩ },
       [.authenticatedMsg uid]) := by
  unfold handleAuthentication
  rw [if_neg (by rw [strFalsy_some_false htk]; exact Bool.false_ne_true)]
  show (match verify tk with
    | some uid => _
    | none => (s, [OutMsg.authErrorMsg "Invalid or expired token"])) = _
  rw [hv, hc]

theorem handleMessage_auth_eq (verify : String → Option String) (now : Nat)
    (c : String) (pid tk : Option String) (s : ServerState) :
    handleMessage verify now c ⟨"authenticate", pid, tk⟩ s =
      handleAuthentication verify now c tk (touchActivity now c s) := by
  simp +decide [handleMessage]

theorem handleMessage_subscribe_missing (verify : String → Option String)
    (now : Nat) (c : String) (tk : Option String) (s : ServerState) :
    handleMessage verify now c ⟨"subscribe", none, tk⟩ s =
      (touchActivity now c s, [.errorMsg "Poll ID is required for subscription"]) := by
  simp +decide [handleMessage, strFalsy]

theorem handleMessage_subscribe_unauth {verify : String → Option String}
    {now : Nat} {c p : String} (tk : Option String) {s : ServerState}
    {ci : ClientInfo} (hc : mapGet s.clients c = some ci)
    (hne : ci.authenticated = false) (hp : p ≠ "") :
    handleMessage verify now c ⟨"subscribe", some p, tk⟩ s =
      (touchActivity now c s,
       [.errorMsg "Authentication required for poll subscriptions"]) := by
  have h1 : strFalsy (some p) = false := strFalsy_some_false hp
  have h2 : isClientAuthenticated c (touchActivity now c s) = false := by
    rw [isClientAuthenticated_touch hc]
    exact hne
  simp +decide [handleMessage, h1, h2]

theorem handleMessage_subscribe_auth {verify : String → Option String}
    {now : Nat} {c p : String} (tk : Option String) {s : ServerState}
    {ci : ClientInfo} (hc : mapGet s.clients c = some ci)
    (hauth : ci.authenticated = true) (hp : p ≠ "") :
    handleMessage verify now c ⟨"subscribe", some p, tk⟩ s =
      ({ touchActivity now c s with
          pollSubscriptions := subscribeToPoll c p s.pollSubscriptions },
       [.subscribedMsg p]) := by
  have h1 : strFalsy (some p) = false := strFalsy_some_false hp
  have h2 : isClientAuthenticated c (touchActivity now c s) = true := by
    rw [isClientAuthenticated_touch hc]
    exact hauth
  simp +decide [handleMessage, h1, h2, touchActivity_subs]

theorem handleMessage_unsubscribe_eq {now : Nat} {c p : String}
    (verify : String → Option String) (tk : Option String) {s : ServerState}
    (hp : p ≠ "") :
    handleMessage verify now c ⟨"unsubscribe", some p, tk⟩ s =
      ({ touchActivity now c s with
          pollSubscriptions := unsubscribeFromPoll c p s.pollSubscriptions },
       [.unsubscribedMsg p]) := by
  have h1 : strFalsy (some p) = false := strFalsy_some_false hp
  simp +decide [handleMessage, h1, touchActivity_subs]

theorem handleMessage_ping_eq (verify : String → Option String) (now : Nat)
    (c : String) (pid tk : Option String) (s : ServerState) :
    handleMessage verify now c ⟨"ping", pid, tk⟩ s =
      (touchActivity now c s, [.pongMsg]) := by
  simp +decide [handleMessage]

theorem handleMessage_unknown_eq (verify : String → Option String) (now : Nat)
    (c : String) (f : Frame) (s : ServerState)
    (h1 : f.type ≠ "authenticate") (h2 : f.type ≠ "subscribe")
    (h3 : f.type ≠ "unsubscribe") (h4 : f.type ≠ "ping")
    (h5 : f.type ≠ "getStats") :
    handleMessage verify now c f s =
      (touchActivity now c s, [.errorMsg "Unknown message type"]) := by
  simp only [handleMessage]
  rw [if_neg h1, if_neg h2, if_neg h3, if_neg h4, if_neg h5]

theorem handleAuthentication_falsy {verify : String → Option String}
    {now : Nat} {c : String} {tk : Option String} {s : ServerState}
    (hsf : strFalsy tk = true) :
    handleAuthentication verify now c tk s =
      (s, [.authErrorMsg "Token is required"]) := by
  unfold handleAuthentication
  rw [if_pos hsf]

theorem handleMessage_subscribe_falsy {now : Nat} {c : String}
    (verify : String → Option String) {pid : Option String} (tk : Option String)
    (s : ServerState) (hsf : strFalsy pid = true) :
    handleMessage verify now c ⟨"subscribe", pid, tk⟩ s =
      (touchActivity now c s, [.errorMsg "Poll ID is required for subscription"]) := by
  simp +decide [handleMessage, hsf]

theorem handleMessage_unsubscribe_falsy {now : Nat} {c : String}
    (verify : String → Option String) {pid : Option String} (tk : Option String)
    (s : ServerState) (hsf : strFalsy pid = true) :
    handleMessage verify now c ⟨"unsubscribe", pid, tk⟩ s =
      (touchActivity now c s, [.errorMsg "Poll ID is required for unsubscription"]) := by
  simp +decide [handleMessage, hsf]

theorem handleMessage_getStats_auth {now : Nat} {c : String}
    (verify : String → Option String) (pid tk : Option String) {s : ServerState}
    (h2 : isClientAuthenticated c (touchActivity now c s) = true) :
    handleMessage verify now c ⟨"getStats", pid, tk⟩ s =
      (touchActivity now c s,
       [.statsMsg (getConnectionStats now (touchActivity now c s))]) := by
  simp +decide [handleMessage, h2]

theorem handleMessage_getStats_unauth {now : Nat} {c : String}
    (verify : String → Option String) (pid tk : Option String) {s : ServerState}
    (h2 : isClientAuthenticated c (touchActivity now c s) = false) :
    handleMessage verify now c ⟨"getStats", pid, tk⟩ s =
      (touchActivity now c s, [.errorMsg "Authentication required"]) := by
  simp +decide [handleMessage, h2]

/- ----------------------------------------------------------------- -/
/- Claim theorems.                                                   -/
/- ----------------------------------------------------------------- -/

/-- C9: for every authenticated connection and every topic, subscribing it
to the topic twice in succession yields the same observable subscriber set
for that topic as subscribing it once (subscribe is idempotent; the second
subscribe frame adds nothing). -/
theorem claim_C9 (verify : String → Option String) (n1 n2 : Nat)
    (c p : String) (s : ServerState) (ci : ClientInfo)
    (hc : mapGet s.clients c = some ci) (hauth : ci.authenticated = true)
    (hp : p ≠ "") :
    subscribersOf p ((handleMessage verify n2 c ⟨"subscribe", some p, none⟩
        ((handleMessage verify n1 c ⟨"subscribe", some p, none⟩ s).1)).1) =
      subscribersOf p ((handleMessage verify n1 c ⟨"subscribe", some p, none⟩ s).1) := by
  rw [handleMessage_subscribe_auth none hc hauth hp]
  have hc1 : mapGet ({ touchActivity n1 c s with
      pollSubscriptions := subscribeToPoll c p s.pollSubscriptions } :
        ServerState).clients c = some { ci with lastActivity := some n1 } :=
    touchActivity_clients_get hc
  rw [handleMessage_subscribe_auth none hc1 hauth hp]
  show (mapGet (subscribeToPoll c p (subscribeToPoll c p s.pollSubscriptions)) p).getD [] =
    (mapGet (subscribeToPoll c p s.pollSubscriptions) p).getD []
  rw [subscribeToPoll_idem]

/-- C9 witness: a concrete authenticated client "c" subscribing twice to
"t" observes the same subscriber set as subscribing once. -/
theorem claim_C9_witness :
    mapGet (⟨[("c", authCi)], [], []⟩ : ServerState).clients "c" = some authCi ∧
    authCi.authenticated = true ∧ ("t" : String) ≠ "" ∧
    subscribersOf "t" ((handleMessage goodVerify 2 "c" ⟨"subscribe", some "t", none⟩
        ((handleMessage goodVerify 1 "c" ⟨"subscribe", some "t", none⟩
          ⟨[("c", authCi)], [], []⟩).1)).1) =
      subscribersOf "t" ((handleMessage goodVerify 1 "c" ⟨"subscribe", some "t", none⟩
          ⟨[("c", authCi)], [], []⟩).1) :=
  ⟨by decide, by decide, by decide,
   claim_C9 goodVerify 1 2 "c" "t" ⟨[("c", authCi)], [], []⟩ authCi
     (by decide) (by decide) (by decide)⟩

/-- C3 counterexample: the claim is false for the publish path. In the
state where topic "t" has the single subscriber "b" whose transport send
throws, publishing to "t" deletes "b" from the live set but never prunes
the emptied entry: afterwards "t" maps to an empty subscriber set. -/
theorem claim_C3_counterexample :
    ¬ noEmptyTopics (broadcastPollUpdate "t" oneDeadState).state.pollSubscriptions ∧
    mapGet (broadcastPollUpdate "t" oneDeadState).state.pollSubscriptions "t" =
      some [] := by
  constructor
  · decide
  · decide

/-- C3 amended: after subscribe, unsubscribe and unsubscribeAll
(removeFromPollSubscriptions) the no-empty-topics invariant is preserved,
but the removal of dead subscribers by the broadcast engine does not prune, and
can leave the published topic mapped to an empty subscriber set (witnessed
by the concrete dead-subscriber state). -/
theorem claim_C3 :
    (∀ (c p : String) (m : JsMap (List String)), noEmptyTopics m →
        noEmptyTopics (subscribeToPoll c p m)) ∧
    (∀ (c p : String) (m : JsMap (List String)), noEmptyTopics m →
        noEmptyTopics (unsubscribeFromPoll c p m)) ∧
    (∀ (c : String) (m : JsMap (List String)),
        noEmptyTopics (removeFromPollSubscriptions c m)) ∧
    (noEmptyTopics oneDeadState.pollSubscriptions ∧
     ¬ noEmptyTopics (broadcastPollUpdate "t" oneDeadState).state.pollSubscriptions) := by
  refine ⟨?_, ?_, ?_, by decide, by decide⟩
  · intro c p m h
    exact subscribeToPoll_noEmpty c p h
  · intro c p m h
    exact unsubscribeFromPoll_noEmpty c p h
  · intro c m
    exact rfps_noEmpty c m

/-- C3 witness: the amended preservation applied at a concrete input. -/
theorem claim_C3_witness :
    noEmptyTopics (subscribeToPoll "c" "t" [("q", ["x"])]) :=
  claim_C3.1 "c" "t" [("q", ["x"])] (by decide)

theorem broadcastStep_ok_eq (p : String) (acc : BroadcastResult) (cid : String)
    {ci : ClientInfo} (hget : mapGet acc.state.clients cid = some ci)
    (hopen : ci.wsOpen = true) (hok : ci.sendFails = false) :
    broadcastStep p acc cid =
      { acc with attempted := acc.attempted ++ [cid],
                 delivered := acc.delivered ++ [cid],
                 successCount := acc.successCount + 1 } := by
  unfold broadcastStep
  rw [hget]
  simp [hopen, hok]

theorem broadcastStep_fail_eq (p : String) (acc : BroadcastResult) (cid : String)
    {ci : ClientInfo} (hget : mapGet acc.state.clients cid = some ci)
    (hopen : ci.wsOpen = true) (hfail : ci.sendFails = true) :
    broadcastStep p acc cid =
      { acc with
        state := { acc.state with
          clients := mapDelete acc.state.clients cid,
          pollSubscriptions := subsDeleteAt acc.state.pollSubscriptions p cid },
        attempted := acc.attempted ++ [cid],
        failCount := acc.failCount + 1 } := by
  unfold broadcastStep
  rw [hget]
  simp [hopen, hfail]

theorem subsDeleteAt_get_self {m : JsMap (List String)} {T : String}
    {l : List String} (cid : String) (h : mapGet m T = some l) :
    mapGet (subsDeleteAt m T cid) T = some (setDelete l cid) := by
  unfold subsDeleteAt
  rw [h]
  exact mapGet_mapSet_self m T (setDelete l cid)

/-- C1: for a topic T whose subscriber set is the three distinct
connections A, B, C, where A and C are live and the send to B throws,
publish delivers the payload to A and to C, removes B from the T subscriber
set, and reports success count 2 and failure count 1. The engine absorbs
the per-subscriber failure: broadcastPollUpdate is a total function of the
state and returns these aggregates to its caller rather than raising. -/
theorem claim_C1 (T A B C : String) (s : ServerState) (ai bi ci : ClientInfo)
    (hAB : A ≠ B) (hCB : C ≠ B) (_hAC : A ≠ C)
    (hsub : mapGet s.pollSubscriptions T = some [A, B, C])
    (hA : mapGet s.clients A = some ai) (hAopen : ai.wsOpen = true)
    (hAok : ai.sendFails = false)
    (hB : mapGet s.clients B = some bi) (hBopen : bi.wsOpen = true)
    (hBfail : bi.sendFails = true)
    (hC : mapGet s.clients C = some ci) (hCopen : ci.wsOpen = true)
    (hCok : ci.sendFails = false) :
    (broadcastPollUpdate T s).delivered = [A, C] ∧
    subscribersOf T (broadcastPollUpdate T s).state = [A, C] ∧
    B ∉ subscribersOf T (broadcastPollUpdate T s).state ∧
    (broadcastPollUpdate T s).successCount = 2 ∧
    (broadcastPollUpdate T s).failCount = 1 := by
  have hCBmap : mapGet (mapDelete s.clients B) C = some ci := by
    rw [mapGet_mapDelete_ne s.clients hCB]
    exact hC
  have hmain : broadcastPollUpdate T s =
      { state := { s with
          clients := mapDelete s.clients B,
          pollSubscriptions := subsDeleteAt s.pollSubscriptions T B },
        attempted := [A, B, C], delivered := [A, C],
        successCount := 2, failCount := 1 } := by
    unfold broadcastPollUpdate
    rw [hsub]
    show List.foldl (broadcastStep T) ⟨s, [], [], 0, 0⟩ [A, B, C] =
      { state := { s with
          clients := mapDelete s.clients B,
          pollSubscriptions := subsDeleteAt s.pollSubscriptions T B },
        attempted := [A, B, C], delivered := [A, C],
        successCount := 2, failCount := 1 }
    rw [List.foldl_cons,
        broadcastStep_ok_eq T ⟨s, [], [], 0, 0⟩ A hA hAopen hAok]
    rw [List.foldl_cons, broadcastStep_fail_eq T _ B hB hBopen hBfail]
    rw [List.foldl_cons, broadcastStep_ok_eq T _ C hCBmap hCopen hCok]
    rw [List.foldl_nil]
    rfl
  have hsubsT : subscribersOf T (broadcastPollUpdate T s).state = [A, C] := by
    rw [hmain]
    show (mapGet (subsDeleteAt s.pollSubscriptions T B) T).getD [] = [A, C]
    rw [subsDeleteAt_get_self B hsub]
    show setDelete [A, B, C] B = [A, C]
    simp [setDelete, List.filter_cons, hAB, hCB]
  refine ⟨by rw [hmain], hsubsT, ?_, by rw [hmain], by rw [hmain]⟩
  rw [hsubsT]
  intro hmem
  rcases List.mem_cons.mp hmem with h1 | h1
  · exact hAB h1.symm
  · exact hCB ((List.mem_singleton.mp h1).symm)

/-- C1 witness: the partial-failure scenario evaluated at a concrete state
with subscribers "a", "b", "c" to topic "t" where the send to "b" throws. -/
theorem claim_C1_witness :
    (broadcastPollUpdate "t"
      ⟨[("a", okCi), ("b", deadCi), ("c", okCi)], [],
       [("t", ["a", "b", "c"])]⟩).delivered = ["a", "c"] ∧
    subscribersOf "t" (broadcastPollUpdate "t"
      ⟨[("a", okCi), ("b", deadCi), ("c", okCi)], [],
       [("t", ["a", "b", "c"])]⟩).state = ["a", "c"] ∧
    "b" ∉ subscribersOf "t" (broadcastPollUpdate "t"
      ⟨[("a", okCi), ("b", deadCi), ("c", okCi)], [],
       [("t", ["a", "b", "c"])]⟩).state ∧
    (broadcastPollUpdate "t"
      ⟨[("a", okCi), ("b", deadCi), ("c", okCi)], [],
       [("t", ["a", "b", "c"])]⟩).successCount = 2 ∧
    (broadcastPollUpdate "t"
      ⟨[("a", okCi), ("b", deadCi), ("c", okCi)], [],
       [("t", ["a", "b", "c"])]⟩).failCount = 1 :=
  claim_C1 "t" "a" "b" "c"
    ⟨[("a", okCi), ("b", deadCi), ("c", okCi)], [], [("t", ["a", "b", "c"])]⟩
    okCi deadCi okCi (by decide) (by decide) (by decide) (by decide)
    (by decide) (by decide) (by decide) (by decide) (by decide) (by decide)
    (by decide) (by decide) (by decide)

/-- C2 counterexample: the claim is false as stated. In the state where
connection "b" (whose send throws) is subscribed to both "t1" and "t2",
publishing to "t1" takes the failure path for "b" — it is deleted from the
clients registry and from the subscriber set of "t1" — yet "b" is NOT removed
from the subscriber set of "t2": only the set of the published topic is healed. -/
theorem claim_C2_counterexample :
    (broadcastPollUpdate "t1" twoTopicState).failCount = 1 ∧
    mapGet (broadcastPollUpdate "t1" twoTopicState).state.clients "b" = none ∧
    "b" ∉ subscribersOf "t1" (broadcastPollUpdate "t1" twoTopicState).state ∧
    "b" ∈ subscribersOf "t2" (broadcastPollUpdate "t1" twoTopicState).state := by
  refine ⟨by decide, by decide, by decide, by decide⟩

/-- C2 amended: for every connection whose send fails during a publish
fan-out, the broadcast engine removes that connection from the Connection
Registry and from the subscriber set of the topic being published; the
subscriber sets of every other topic are left exactly as they were (the
stale memberships persist until a later publish to that topic, an explicit
unsubscribe, a disconnect, or a sweeper eviction). -/
theorem claim_C2 (T b : String) (s : ServerState) (bi : ClientInfo)
    (l : List String) (hsub : mapGet s.pollSubscriptions T = some l)
    (hmem : b ∈ l) (hb : mapGet s.clients b = some bi)
    (hopen : bi.wsOpen = true) (hfail : bi.sendFails = true) :
    mapGet (broadcastPollUpdate T s).state.clients b = none ∧
    b ∉ subscribersOf T (broadcastPollUpdate T s).state ∧
    (∀ p, p ≠ T →
      mapGet (broadcastPollUpdate T s).state.pollSubscriptions p =
        mapGet s.pollSubscriptions p) := by
  unfold broadcastPollUpdate
  rw [hsub]
  have hkill := bfold_kills (p := T) l ⟨s, [], [], 0, 0⟩ hmem hb hopen hfail
  exact ⟨hkill.1, hkill.2, fun p hp => bfold_subs_get_ne hp l ⟨s, [], [], 0, 0⟩⟩

/-- C2 amended witness: the two-topic dead-subscriber state evaluated
concretely. -/
theorem claim_C2_witness :
    mapGet (broadcastPollUpdate "t1" twoTopicState).state.clients "b" = none ∧
    "b" ∉ subscribersOf "t1" (broadcastPollUpdate "t1" twoTopicState).state ∧
    (∀ p, p ≠ "t1" →
      mapGet (broadcastPollUpdate "t1" twoTopicState).state.pollSubscriptions p =
        mapGet twoTopicState.pollSubscriptions p) :=
  claim_C2 "t1" "b" twoTopicState deadCi ["b"] (by decide) (by decide)
    (by decide) (by decide) (by decide)

theorem not_attempted_of_fullyRemoved {c : String} {s : ServerState}
    (h : fullyRemoved c s) (p : String) :
    c ∉ (broadcastPollUpdate p s).attempted := by
  intro hmem
  have h2 := broadcast_attempted_sub p s c hmem
  unfold subsAt at h2
  cases hg : mapGet s.pollSubscriptions p with
  | none =>
      rw [hg] at h2
      exact absurd h2 (List.not_mem_nil c)
  | some l =>
      rw [hg] at h2
      exact h.2 (p, l) (mapGet_mem hg) h2

/-- C4: a removed connection leaves no trace. (a) After the close handler
runs for connection c, c is absent from the clients registry and from every
topic subscriber set, and no subsequent publish to any topic attempts a
send to c. (b) The same holds after a sweeper run evicts c (c present with
its liveness timestamp aged beyond the threshold). -/
theorem claim_C4 :
    (∀ (c : String) (s : ServerState),
      fullyRemoved c (handleClose c s) ∧
      ∀ p, c ∉ (broadcastPollUpdate p (handleClose c s)).attempted) ∧
    (∀ (c : String) (s : ServerState) (now : Nat) (ci : ClientInfo),
      mapGet s.clients c = some ci →
      now - effectiveLastActivity ci > inactivityThreshold →
      fullyRemoved c (cleanupInactiveConnections now s) ∧
      ∀ p, c ∉ (broadcastPollUpdate p (cleanupInactiveConnections now s)).attempted) := by
  constructor
  · intro c s
    have h1 := handleClose_fullyRemoved c s
    exact ⟨h1, fun p => not_attempted_of_fullyRemoved h1 p⟩
  · intro c s now ci hc hexp
    have h1 : fullyRemoved c (cleanupInactiveConnections now s) :=
      cleanup_fold_evicts now s.clients s (mapGet_mem hc) hexp
    exact ⟨h1, fun p => not_attempted_of_fullyRemoved h1 p⟩

/-- C4 witness: sweeper eviction of a silent stale connection, evaluated
concretely (client "b", connected at 0, swept at time 400001). -/
theorem claim_C4_witness :
    mapGet (⟨[("b", okCi)], [], [("t", ["b"])]⟩ : ServerState).clients "b" =
      some okCi ∧
    400001 - effectiveLastActivity okCi > inactivityThreshold ∧
    fullyRemoved "b"
      (cleanupInactiveConnections 400001 ⟨[("b", okCi)], [], [("t", ["b"])]⟩) ∧
    "b" ∉ (broadcastPollUpdate "t"
      (cleanupInactiveConnections 400001
        ⟨[("b", okCi)], [], [("t", ["b"])]⟩)).attempted :=
  ⟨by decide, by decide,
   (claim_C4.2 "b" ⟨[("b", okCi)], [], [("t", ["b"])]⟩ 400001 okCi
     (by decide) (by decide)).1,
   (claim_C4.2 "b" ⟨[("b", okCi)], [], [("t", ["b"])]⟩ 400001 okCi
     (by decide) (by decide)).2 "t"⟩

/-- C7 counterexample: the claim is false as stated. A connection accepted
at time 0 that produces no inbound frames and no pongs, but whose transport
stays OPEN, has its lastPing refreshed by the 30-second ping the server itself sends,
interval; at time 420001 — beyond the 5-minute threshold plus one 2-minute
sweep period — a sweeper run still does not evict it, because the sweeper
reads lastActivity-else-lastPing and lastPing is at most 30 seconds old. -/
theorem claim_C7_counterexample :
    inactivityThreshold + sweepPeriod < 420001 ∧
    mapGet (cleanupInactiveConnections 420001 silentPingedState).clients "abc0" ≠
      none := by
  refine ⟨by decide, by decide⟩

/-- C7 amended: the sweeper evicts exactly the connections whose effective
liveness timestamp (lastActivity when any frame has been handled, else
lastPing) has aged beyond the threshold: (a) such a connection is removed
from the registry and all subscriber sets; (b) a connection whose effective
timestamp is within the threshold survives the sweep unchanged; (c) the
server-side 30-second ping interval refreshes lastPing whenever the
transport is OPEN — even with no pong from the client — so a silent open
connection is refreshed forever and is never evicted. -/
theorem claim_C7 :
    (∀ (now : Nat) (c : String) (s : ServerState) (ci : ClientInfo),
      mapGet s.clients c = some ci →
      now - effectiveLastActivity ci > inactivityThreshold →
      fullyRemoved c (cleanupInactiveConnections now s)) ∧
    (∀ (now : Nat) (c : String) (s : ServerState) (ci : ClientInfo),
      keysNodup s.clients →
      mapGet s.clients c = some ci →
      ¬(now - effectiveLastActivity ci > inactivityThreshold) →
      mapGet (cleanupInactiveConnections now s).clients c = some ci) ∧
    (∀ (now : Nat) (c : String) (s : ServerState) (ci : ClientInfo),
      mapGet s.clients c = some ci → ci.wsOpen = true →
      mapGet (pingTick now c s).clients c = some { ci with lastPing := now }) := by
  refine ⟨?_, ?_, ?_⟩
  · intro now c s ci hc hexp
    exact cleanup_fold_evicts now s.clients s (mapGet_mem hc) hexp
  · intro now c s ci hn hc hkeep
    refine cleanup_fold_keeps now s.clients s ?_ hc
    intro e he hec
    rw [mapGet_nodup_unique hn hc e he hec]
    exact hkeep
  · intro now c s ci hc hopen
    simp only [pingTick, hc, hopen, eq_self_iff_true, if_true]
    exact mapGet_mapSet_self s.clients c _

/-- C7 amended witness: a fresh connection within the threshold survives a
sweep at time 100 unchanged. -/
theorem claim_C7_witness :
    keysNodup (⟨[("b", okCi)], [], []⟩ : ServerState).clients ∧
    mapGet (⟨[("b", okCi)], [], []⟩ : ServerState).clients "b" = some okCi ∧
    ¬(100 - effectiveLastActivity okCi > inactivityThreshold) ∧
    mapGet (cleanupInactiveConnections 100
      ⟨[("b", okCi)], [], []⟩).clients "b" = some okCi :=
  ⟨by decide, by decide, by decide,
   claim_C7.2.1 100 "b" ⟨[("b", okCi)], [], []⟩ okCi (by decide) (by decide)
     (by decide)⟩

/-- C10 counterexample: the claim is false as stated. The id is a pure
function of the random digit string and the accept-time millisecond; when
both repeat ("xyz" drawn again in millisecond 5) the generator returns
"xyz5", an id already held by a live (here, authenticated) connection, and
registration overwrites the registry entry of that connection in place: the map
does not grow and the stored record changes. -/
theorem claim_C10_counterexample :
    (registerClient "xyz" 5 collisionBaseState).1 = "xyz5" ∧
    mapGet collisionBaseState.clients "xyz5" ≠ none ∧
    ((registerClient "xyz" 5 collisionBaseState).2.1).clients.length =
      collisionBaseState.clients.length ∧
    mapGet ((registerClient "xyz" 5 collisionBaseState).2.1).clients "xyz5" ≠
      mapGet collisionBaseState.clients "xyz5" := by
  refine ⟨by decide, by decide, by decide, by decide⟩

/-- C10 amended: registration derives the id deterministically from the
random draw and the accept-time clock and stores the record with Map.set,
performing no occupancy check. Whenever the generated id is not already a
live key, the accepted connection gets a fresh entry under exactly that id,
every other registry entry is untouched, and the registry grows by one;  a
colliding id instead overwrites the existing entry (see the
counterexample). The id itself is returned and stored once, at accept time. -/
theorem claim_C10 (randomPart : String) (now : Nat) (s : ServerState)
    (h : mapGet s.clients (generateClientId randomPart now) = none) :
    (registerClient randomPart now s).1 = generateClientId randomPart now ∧
    mapGet ((registerClient randomPart now s).2.1).clients
      (generateClientId randomPart now) = some (freshClientInfo now) ∧
    (∀ c2, c2 ≠ generateClientId randomPart now →
      mapGet ((registerClient randomPart now s).2.1).clients c2 =
        mapGet s.clients c2) ∧
    ((registerClient randomPart now s).2.1).clients.length =
      s.clients.length + 1 := by
  refine ⟨rfl, ?_, ?_, ?_⟩
  · show mapGet (mapSet s.clients (generateClientId randomPart now)
      (freshClientInfo now)) (generateClientId randomPart now) = _
    exact mapGet_mapSet_self s.clients _ _
  · intro c2 hc2
    show mapGet (mapSet s.clients (generateClientId randomPart now)
      (freshClientInfo now)) c2 = _
    exact mapGet_mapSet_ne s.clients _ hc2
  · show (mapSet s.clients (generateClientId randomPart now)
      (freshClientInfo now)).length = _
    rw [mapSet_absent (freshClientInfo now) h, List.length_append]
    rfl

/-- C10 amended witness: a fresh registration on the empty registry. -/
theorem claim_C10_witness :
    mapGet initialState.clients (generateClientId "zzz" 7) = none ∧
    mapGet ((registerClient "zzz" 7 initialState).2.1).clients
      (generateClientId "zzz" 7) = some (freshClientInfo 7) ∧
    ((registerClient "zzz" 7 initialState).2.1).clients.length =
      initialState.clients.length + 1 :=
  ⟨by decide, (claim_C10 "zzz" 7 initialState (by decide)).2.1,
   (claim_C10 "zzz" 7 initialState (by decide)).2.2.2⟩

/-- C5: auth gating. A subscribe frame carrying topic p from connection c
while unauthenticated is answered with an error and creates no subscription
(the subscription map is exactly unchanged); the identical frame sent after
a successful authenticate frame is answered with `subscribed` and adds c to
p's subscriber set. -/
theorem claim_C5 (verify : String → Option String) (n1 n2 n3 : Nat)
    (c p tk uid : String) (s : ServerState) (ci : ClientInfo)
    (hc : mapGet s.clients c = some ci) (hunauth : ci.authenticated = false)
    (hp : p ≠ "") (htk : tk ≠ "") (hv : verify tk = some uid) :
    ((handleMessage verify n1 c ⟨"subscribe", some p, none⟩ s).2 =
        [.errorMsg "Authentication required for poll subscriptions"] ∧
      (handleMessage verify n1 c ⟨"subscribe", some p, none⟩ s).1.pollSubscriptions =
        s.pollSubscriptions) ∧
    ((handleMessage verify n3 c ⟨"subscribe", some p, none⟩
        ((handleMessage verify n2 c ⟨"authenticate", none, some tk⟩ s).1)).2 =
        [.subscribedMsg p] ∧
      c ∈ subscribersOf p
        (handleMessage verify n3 c ⟨"subscribe", some p, none⟩
          ((handleMessage verify n2 c ⟨"authenticate", none, some tk⟩ s).1)).1) := by
  constructor
  · rw [handleMessage_subscribe_unauth none hc hunauth hp]
    exact ⟨rfl, touchActivity_subs n1 c s⟩
  · have htouch : mapGet (touchActivity n2 c s).clients c =
        some (touchedCi ci n2) := touchActivity_clients_get hc
    have hs2 : (handleMessage verify n2 c ⟨"authenticate", none, some tk⟩ s).1 =
        (fun cl am => { touchActivity n2 c s with
            clients := cl, authenticatedClients := am })
          (mapSet (touchActivity n2 c s).clients c (authedCi (touchedCi ci n2) uid n2))
          (mapSet (touchActivity n2 c s).authenticatedClients c ⟨uid, n2⟩) := by
      rw [handleMessage_auth_eq, handleAuthentication_good htk hv htouch]
      rfl
    have hc2 : mapGet ((handleMessage verify n2 c
        ⟨"authenticate", none, some tk⟩ s).1).clients c =
        some (authedCi (touchedCi ci n2) uid n2) := by
      rw [hs2]
      exact mapGet_mapSet_self _ _ _
    rw [handleMessage_subscribe_auth none hc2 rfl hp]
    refine ⟨rfl, ?_⟩
    show c ∈ (mapGet (subscribeToPoll c p
      ((handleMessage verify n2 c ⟨"authenticate", none, some tk⟩
        s).1).pollSubscriptions) p).getD []
    rw [subscribeToPoll_get_self]
    exact mem_setAdd_self _ c

/-- C5 witness: concrete unauthenticated client "c", topic "t", token
"good": the frame is rejected before authentication and accepted after. -/
theorem claim_C5_witness :
    ((handleMessage goodVerify 1 "c" ⟨"subscribe", some "t", none⟩
        (⟨[("c", okCi)], [], []⟩ : ServerState)).2 =
        [.errorMsg "Authentication required for poll subscriptions"] ∧
      (handleMessage goodVerify 1 "c" ⟨"subscribe", some "t", none⟩
        (⟨[("c", okCi)], [], []⟩ : ServerState)).1.pollSubscriptions = []) ∧
    ((handleMessage goodVerify 3 "c" ⟨"subscribe", some "t", none⟩
        ((handleMessage goodVerify 2 "c" ⟨"authenticate", none, some "good"⟩
          (⟨[("c", okCi)], [], []⟩ : ServerState)).1)).2 = [.subscribedMsg "t"] ∧
      "c" ∈ subscribersOf "t"
        (handleMessage goodVerify 3 "c" ⟨"subscribe", some "t", none⟩
          ((handleMessage goodVerify 2 "c" ⟨"authenticate", none, some "good"⟩
            (⟨[("c", okCi)], [], []⟩ : ServerState)).1)).1) :=
  claim_C5 goodVerify 1 2 3 "c" "t" "good" "u1"
    ⟨[("c", okCi)], [], []⟩ okCi (by decide) (by decide) (by decide)
    (by decide) (by decide)

/-- C6: processing an authenticate frame. On a missing token or a token the
verifier rejects, the connection is answered with an auth error and its
record is exactly the liveness-touched one (touchedCi changes only
lastActivity: authenticated stays as it was — false stays false — userId
stays none, wsOpen is untouched, and nothing closes the transport, so the
client may retry); the subscription map and the authenticatedClients map
are unchanged. On verifier success the record becomes authedCi: it gains
authenticated=true and the recorded subject id. -/
theorem claim_C6 (verify : String → Option String) (now : Nat) (c : String)
    (s : ServerState) (ci : ClientInfo) (hc : mapGet s.clients c = some ci) :
    ((handleMessage verify now c ⟨"authenticate", none, none⟩ s).2 =
        [.authErrorMsg "Token is required"] ∧
      mapGet (handleMessage verify now c
        ⟨"authenticate", none, none⟩ s).1.clients c = some (touchedCi ci now) ∧
      (handleMessage verify now c
        ⟨"authenticate", none, none⟩ s).1.pollSubscriptions = s.pollSubscriptions ∧
      (handleMessage verify now c
        ⟨"authenticate", none, none⟩ s).1.authenticatedClients =
          s.authenticatedClients) ∧
    (∀ tk, tk ≠ "" → verify tk = none →
      (handleMessage verify now c ⟨"authenticate", none, some tk⟩ s).2 =
        [.authErrorMsg "Invalid or expired token"] ∧
      mapGet (handleMessage verify now c
        ⟨"authenticate", none, some tk⟩ s).1.clients c = some (touchedCi ci now) ∧
      (handleMessage verify now c
        ⟨"authenticate", none, some tk⟩ s).1.pollSubscriptions =
          s.pollSubscriptions ∧
      (handleMessage verify now c
        ⟨"authenticate", none, some tk⟩ s).1.authenticatedClients =
          s.authenticatedClients) ∧
    (∀ tk uid, tk ≠ "" → verify tk = some uid →
      (handleMessage verify now c ⟨"authenticate", none, some tk⟩ s).2 =
        [.authenticatedMsg uid] ∧
      mapGet (handleMessage verify now c
        ⟨"authenticate", none, some tk⟩ s).1.clients c =
          some (authedCi (touchedCi ci now) uid now)) := by
  refine ⟨?_, ?_, ?_⟩
  · rw [handleMessage_auth_eq, handleAuthentication_missing]
    exact ⟨rfl, touchActivity_clients_get hc, touchActivity_subs now c s,
      touchActivity_authMap now c s⟩
  · intro tk htk hvn
    rw [handleMessage_auth_eq, handleAuthentication_bad htk hvn]
    exact ⟨rfl, touchActivity_clients_get hc, touchActivity_subs now c s,
      touchActivity_authMap now c s⟩
  · intro tk uid htk hv
    rw [handleMessage_auth_eq,
        handleAuthentication_good htk hv (touchActivity_clients_get hc)]
    exact ⟨rfl, mapGet_mapSet_self _ _ _⟩

/-- C6 witness: the success and retry paths evaluated at a concrete state,
applying the theorem with its hypotheses discharged. -/
theorem claim_C6_witness :
    ("good" : String) ≠ "" ∧ goodVerify "good" = some "u1" ∧
    (handleMessage goodVerify 5 "c" ⟨"authenticate", none, some "good"⟩
      (⟨[("c", okCi)], [], []⟩ : ServerState)).2 = [.authenticatedMsg "u1"] ∧
    mapGet (handleMessage goodVerify 5 "c" ⟨"authenticate", none, some "good"⟩
      (⟨[("c", okCi)], [], []⟩ : ServerState)).1.clients "c" =
        some (authedCi (touchedCi okCi 5) "u1" 5) :=
  ⟨by decide, by decide,
   (claim_C6 goodVerify 5 "c" ⟨[("c", okCi)], [], []⟩ okCi (by decide)).2.2
     "good" "u1" (by decide) (by decide)⟩

/-- C8: protocol errors. (a) A non-parseable frame is answered with the
"Invalid JSON format" error and alters nothing: the state is returned
exactly as it was (connection registry, subscription index, liveness, and
the transport all untouched, so the connection stays open). (b) A parsed
frame with an unknown type is answered with the "Unknown message type"
error; the subscription index and authenticatedClients are unchanged, no
record of any other client changes, and the record of the sender changes only by the
liveness touch. (c) Every parsed frame handled for a registered connection
first touches its liveness: whatever the frame, the resulting record has
lastActivity equal to the handling time. -/
theorem claim_C8 (verify : String → Option String) (now : Nat) (c : String)
    (s : ServerState) (ci : ClientInfo) (hc : mapGet s.clients c = some ci) :
    (∀ s2 : ServerState, wsOnMessage verify now c none s2 =
        (s2, [.errorMsg "Invalid JSON format"])) ∧
    (∀ f : Frame, f.type ≠ "authenticate" → f.type ≠ "subscribe" →
      f.type ≠ "unsubscribe" → f.type ≠ "ping" → f.type ≠ "getStats" →
      (handleMessage verify now c f s).2 = [.errorMsg "Unknown message type"] ∧
      (handleMessage verify now c f s).1.pollSubscriptions = s.pollSubscriptions ∧
      (handleMessage verify now c f s).1.authenticatedClients =
        s.authenticatedClients ∧
      mapGet (handleMessage verify now c f s).1.clients c =
        some (touchedCi ci now) ∧
      (∀ c2, c2 ≠ c → mapGet (handleMessage verify now c f s).1.clients c2 =
        mapGet s.clients c2)) ∧
    (∀ f : Frame, ∃ r2,
      mapGet ((handleMessage verify now c f s).1).clients c = some r2 ∧
      r2.lastActivity = some now) := by
  refine ⟨fun s2 => rfl, ?_, ?_⟩
  · intro f h1 h2 h3 h4 h5
    rw [handleMessage_unknown_eq verify now c f s h1 h2 h3 h4 h5]
    exact ⟨rfl, touchActivity_subs now c s, touchActivity_authMap now c s,
      touchActivity_clients_get hc, fun c2 hc2 => touchActivity_clients_get_ne hc2⟩
  · intro f
    obtain ⟨t, pid, tk⟩ := f
    by_cases h1 : t = "authenticate"
    · subst h1
      rw [handleMessage_auth_eq]
      by_cases hsf : strFalsy tk = true
      · rw [handleAuthentication_falsy hsf]
        exact ⟨_, touchActivity_clients_get hc, rfl⟩
      · cases tk with
        | none => exact absurd rfl hsf
        | some tkv =>
            have htkv : tkv ≠ "" := by
              intro he
              rw [he] at hsf
              exact hsf (by decide)
            cases hv : verify tkv with
            | none =>
                rw [handleAuthentication_bad htkv hv]
                exact ⟨_, touchActivity_clients_get hc, rfl⟩
            | some uid =>
                rw [handleAuthentication_good htkv hv (touchActivity_clients_get hc)]
                exact ⟨_, mapGet_mapSet_self _ _ _, rfl⟩
    · by_cases h2 : t = "subscribe"
      · subst h2
        by_cases hsf : strFalsy pid = true
        · rw [handleMessage_subscribe_falsy verify tk s hsf]
          exact ⟨_, touchActivity_clients_get hc, rfl⟩
        · cases pid with
          | none => exact absurd rfl hsf
          | some pv =>
              have hpv : pv ≠ "" := by
                intro he
                rw [he] at hsf
                exact hsf (by decide)
              cases hb : ci.authenticated with
              | false =>
                  rw [handleMessage_subscribe_unauth tk hc hb hpv]
                  exact ⟨_, touchActivity_clients_get hc, rfl⟩
              | true =>
                  rw [handleMessage_subscribe_auth tk hc hb hpv]
                  exact ⟨_, touchActivity_clients_get hc, rfl⟩
      · by_cases h3 : t = "unsubscribe"
        · subst h3
          by_cases hsf : strFalsy pid = true
          · rw [handleMessage_unsubscribe_falsy verify tk s hsf]
            exact ⟨_, touchActivity_clients_get hc, rfl⟩
          · cases pid with
            | none => exact absurd rfl hsf
            | some pv =>
                have hpv : pv ≠ "" := by
                  intro he
                  rw [he] at hsf
                  exact hsf (by decide)
                rw [handleMessage_unsubscribe_eq verify tk hpv]
                exact ⟨_, touchActivity_clients_get hc, rfl⟩
        · by_cases h4 : t = "ping"
          · subst h4
            rw [handleMessage_ping_eq]
            exact ⟨_, touchActivity_clients_get hc, rfl⟩
          · by_cases h5 : t = "getStats"
            · subst h5
              cases hab : isClientAuthenticated c (touchActivity now c s) with
              | true =>
                  rw [handleMessage_getStats_auth verify pid tk hab]
                  exact ⟨_, touchActivity_clients_get hc, rfl⟩
              | false =>
                  rw [handleMessage_getStats_unauth verify pid tk hab]
                  exact ⟨_, touchActivity_clients_get hc, rfl⟩
            · rw [handleMessage_unknown_eq verify now c ⟨t, pid, tk⟩ s h1 h2 h3 h4 h5]
              exact ⟨_, touchActivity_clients_get hc, rfl⟩

/-- C8 witness: the unknown-type case applied at a concrete state and
frame. -/
theorem claim_C8_witness :
    (handleMessage goodVerify 9 "c" ⟨"bogus", none, none⟩
      (⟨[("c", okCi)], [], [("t", ["c"])]⟩ : ServerState)).2 =
      [.errorMsg "Unknown message type"] ∧
    (handleMessage goodVerify 9 "c" ⟨"bogus", none, none⟩
      (⟨[("c", okCi)], [], [("t", ["c"])]⟩ : ServerState)).1.pollSubscriptions =
      [("t", ["c"])] ∧
    mapGet (handleMessage goodVerify 9 "c" ⟨"bogus", none, none⟩
      (⟨[("c", okCi)], [], [("t", ["c"])]⟩ : ServerState)).1.clients "c" =
      some (touchedCi okCi 9) :=
  ⟨((claim_C8 goodVerify 9 "c" ⟨[("c", okCi)], [], [("t", ["c"])]⟩ okCi
      (by decide)).2.1 ⟨"bogus", none, none⟩ (by decide) (by decide) (by decide)
      (by decide) (by decide)).1,
   ((claim_C8 goodVerify 9 "c" ⟨[("c", okCi)], [], [("t", ["c"])]⟩ okCi
      (by decide)).2.1 ⟨"bogus", none, none⟩ (by decide) (by decide) (by decide)
      (by decide) (by decide)).2.1,
   ((claim_C8 goodVerify 9 "c" ⟨[("c", okCi)], [], [("t", ["c"])]⟩ okCi
      (by decide)).2.1 ⟨"bogus", none, none⟩ (by decide) (by decide) (by decide)
      (by decide) (by decide)).2.2.2.1⟩

end PollWS
